import Mathlib

/-!
Verification of the GDEX Jira ticket-routing automation
(`src/gdex_jira/jira_client.py`) against its specification.

The Python code is shallowly embedded over `List Char`.  Strings are
ASCII in all inputs the program handles, so the character classes of
the regular expressions (`\d`, `\w`, `\s`) and `str.lower()` are
modelled on their ASCII fragments.  Raised Python exceptions are
modelled with `Except`, `None` with `Option.none`, and network
activity of `requests` is modelled by an explicit response value
passed to the embedded function.
-/

namespace GdexJira

/-! ## Character classes (ASCII fragments of the Python semantics) -/

/-- ASCII digit, the `\d` class and `str.isdigit` on ASCII text. -/
def isDigitChar (c : Char) : Bool := 48 ≤ c.toNat && c.toNat ≤ 57

/-- ASCII upper-case letter. -/
def isAsciiUpper (c : Char) : Bool := 65 ≤ c.toNat && c.toNat ≤ 90

/-- ASCII lower-case letter. -/
def isAsciiLower (c : Char) : Bool := 97 ≤ c.toNat && c.toNat ≤ 122

/-- The `\w` word-character class on ASCII text. -/
def isWordChar (c : Char) : Bool :=
  isDigitChar c || isAsciiUpper c || isAsciiLower c || c == '_'

/-- The `\s` whitespace class on ASCII text. -/
def isPySpace (c : Char) : Bool :=
  c == ' ' || c == '\t' || c == '\n' || c == '\r' || c == '\x0b' || c == '\x0c'

/-- `str.lower` on one ASCII character. -/
def pyToLowerChar (c : Char) : Char :=
  if isAsciiUpper c then Char.ofNat (c.toNat + 32) else c

/-- `str.lower` on a string. -/
def pyLower (s : List Char) : List Char := s.map pyToLowerChar

/-- `str.isdigit`: true iff nonempty and all digits. -/
def pyIsDigitStr (s : List Char) : Bool := !s.isEmpty && s.all isDigitChar

/-- The letter `d` under `re.IGNORECASE`. -/
def isDChar (c : Char) : Bool := c == 'd' || c == 'D'

/-- The letter `s` under `re.IGNORECASE`. -/
def isSChar (c : Char) : Bool := c == 's' || c == 'S'

/-! ## The two DSID regular expressions

`dsid_patterns = [r'\bd\d\x7b6\x7d\b', r'\bds\d\x7b3\x7d\.\d\b']`
(jira_client.py line 174), searched with `re.search(pattern, text,
re.IGNORECASE)`.  Both patterns describe a fixed-width window, so a
match attempt at one position is a direct test, and `re.search` is
the scan that returns the leftmost successful attempt. -/

/-- `\b` on the left of a match: start of text, or previous character
is not a word character. -/
def boundaryBefore : Option Char → Bool
  | none => true
  | some c => !isWordChar c

/-- `\b` on the right of a match: end of text, or next character is
not a word character. -/
def boundaryAfter : List Char → Bool
  | [] => true
  | c :: _ => !isWordChar c

/-- Attempt of `\bd\d\x7b6\x7d\b` at the current position; `prev` is the
character just before the position. -/
def primMatchAt (prev : Option Char) (s : List Char) : Option (List Char) :=
  match s with
  | c0 :: c1 :: c2 :: c3 :: c4 :: c5 :: c6 :: rest =>
    if boundaryBefore prev && isDChar c0 && isDigitChar c1 && isDigitChar c2 &&
        isDigitChar c3 && isDigitChar c4 && isDigitChar c5 && isDigitChar c6 &&
        boundaryAfter rest then
      some [c0, c1, c2, c3, c4, c5, c6]
    else
      none
  | _ => none

/-- Attempt of `\bds\d\x7b3\x7d\.\d\b` at the current position. -/
def legMatchAt (prev : Option Char) (s : List Char) : Option (List Char) :=
  match s with
  | c0 :: c1 :: c2 :: c3 :: c4 :: c5 :: c6 :: rest =>
    if boundaryBefore prev && isDChar c0 && isSChar c1 && isDigitChar c2 &&
        isDigitChar c3 && isDigitChar c4 && (c5 == '.') && isDigitChar c6 &&
        boundaryAfter rest then
      some [c0, c1, c2, c3, c4, c5, c6]
    else
      none
  | _ => none

/-- `re.search`: try the pattern at every position, left to right, and
return the first (leftmost) match. -/
def searchFrom (matchAt : Option Char → List Char → Option (List Char)) :
    Option Char → List Char → Option (List Char)
  | prev, [] => matchAt prev []
  | prev, c :: cs =>
    match matchAt prev (c :: cs) with
    | some m => some m
    | none => searchFrom matchAt (some c) cs

/-- `re.search(r'\bd\d\x7b6\x7d\b', text, re.IGNORECASE)`. -/
def searchPrim (text : List Char) : Option (List Char) :=
  searchFrom primMatchAt none text

/-- `re.search(r'\bds\d\x7b3\x7d\.\d\b', text, re.IGNORECASE)`. -/
def searchLeg (text : List Char) : Option (List Char) :=
  searchFrom legMatchAt none text

/-! ## DSID extraction (`get_dsid_from_json`, lines 159-191) -/

/-- `dsid.startswith('ds')`. -/
def startsWithDs : List Char → Bool
  | c0 :: c1 :: _ => c0 == 'd' && c1 == 's'
  | _ => false

/-- `str.split('.')`: split on every literal dot; always at least one
part, parts may be empty. -/
def splitOnDot : List Char → List (List Char)
  | [] => [[]]
  | c :: cs =>
    if c = '.' then [] :: splitOnDot cs
    else
      match splitOnDot cs with
      | [] => [[c]]
      | p :: ps => (c :: p) :: ps

/-- Body of the per-match processing in `get_dsid_from_json` (lines
181-190): lower-case the match; a `ds`-prefixed match is converted via
`f'd\x7bparts[0]\x7d00\x7bparts[1]\x7d'` when both dot-separated parts are digit
strings, otherwise the loop falls through (`none`); a match without the
`ds` prefix is returned as is. -/
def processMatch (m : List Char) : Option (List Char) :=
  let dsid := pyLower m
  if startsWithDs dsid then
    match splitOnDot (dsid.drop 2) with
    | [p0, p1] =>
      if pyIsDigitStr p0 && pyIsDigitStr p1 then
        some ('d' :: (p0 ++ '0' :: '0' :: p1))
      else
        none
    | _ => none
  else
    some dsid

/-- The pattern loop of `get_dsid_from_json` (lines 176-191) applied to
the concatenated field text: try the primary pattern, then the legacy
pattern; a fall-through of the per-match processing continues with the
next pattern; no match at all gives `None`. -/
def get_dsid_from_text (text : List Char) : Option (List Char) :=
  match searchPrim text with
  | some m =>
    match processMatch m with
    | some dsid => some dsid
    | none =>
      match searchLeg text with
      | some m2 => processMatch m2
      | none => none
  | none =>
    match searchLeg text with
    | some m2 => processMatch m2
    | none => none

/-! ## Python values

The arguments the program passes around are Python objects: `None`,
strings, lists and dictionaries.  Dictionaries and lists are rolled
into the mutual inductive so that the `str()` renderer below is
structurally recursive. -/

mutual

inductive PyValue : Type where
  | pynone : PyValue
  | pystr : List Char → PyValue
  | pylist : PyValues → PyValue
  | pydict : PyPairs → PyValue

inductive PyValues : Type where
  | nil : PyValues
  | cons : PyValue → PyValues → PyValues

inductive PyPairs : Type where
  | nil : PyPairs
  | cons : List Char → PyValue → PyPairs → PyPairs

end

/-- Python truthiness: `None`, `''`, `[]` and `\x7b\x7d` are falsy. -/
def pyTruthy : PyValue → Bool
  | PyValue.pynone => false
  | PyValue.pystr s => !s.isEmpty
  | PyValue.pylist PyValues.nil => false
  | PyValue.pylist _ => true
  | PyValue.pydict PyPairs.nil => false
  | PyValue.pydict _ => true

/-- `type(x).__name__`. -/
def typeName : PyValue → List Char
  | PyValue.pynone => "NoneType".toList
  | PyValue.pystr _ => "str".toList
  | PyValue.pylist _ => "list".toList
  | PyValue.pydict _ => "dict".toList

/-- Key lookup among dict entries (first binding wins, as in a Python
dict whose keys are unique). -/
def pairsGet : PyPairs → List Char → Option PyValue
  | PyPairs.nil, _ => none
  | PyPairs.cons k v rest, key => if k = key then some v else pairsGet rest key

/-- `d[k]` as an optional lookup. -/
def dictGet : PyValue → List Char → Option PyValue
  | PyValue.pydict ps, k => pairsGet ps k
  | _, _ => none

mutual

/-- `str(x)`: a string renders as itself, containers via `repr`. -/
def pyStrFun : PyValue → List Char
  | PyValue.pynone => "None".toList
  | PyValue.pystr s => s
  | PyValue.pylist xs => '[' :: (pyReprValues xs ++ [']'])
  | PyValue.pydict ps => '\x7b' :: (pyReprPairs ps ++ ['\x7d'])

/-- `repr(x)`: like `str(x)` but strings are quoted. -/
def pyReprFun : PyValue → List Char
  | PyValue.pynone => "None".toList
  | PyValue.pystr s => '\x27' :: (s ++ ['\x27'])
  | PyValue.pylist xs => '[' :: (pyReprValues xs ++ [']'])
  | PyValue.pydict ps => '\x7b' :: (pyReprPairs ps ++ ['\x7d'])

/-- Comma-separated `repr`s of list elements. -/
def pyReprValues : PyValues → List Char
  | PyValues.nil => []
  | PyValues.cons x PyValues.nil => pyReprFun x
  | PyValues.cons x xs => pyReprFun x ++ ',' :: ' ' :: pyReprValues xs

/-- Comma-separated `'key': repr(value)` renderings of dict entries. -/
def pyReprPairs : PyPairs → List Char
  | PyPairs.nil => []
  | PyPairs.cons k v PyPairs.nil => '\x27' :: (k ++ '\x27' :: ':' :: ' ' :: pyReprFun v)
  | PyPairs.cons k v ps =>
    ('\x27' :: (k ++ '\x27' :: ':' :: ' ' :: pyReprFun v)) ++ ',' :: ' ' :: pyReprPairs ps

end

/-- `' '.join(xs)`. -/
def joinSpace : List (List Char) → List Char
  | [] => []
  | [x] => x
  | x :: xs => x ++ ' ' :: joinSpace xs

/-- `map(str, ticket_text.values())`. -/
def dictValuesStr : PyPairs → List (List Char)
  | PyPairs.nil => []
  | PyPairs.cons _ v rest => pyStrFun v :: dictValuesStr rest

/-- `' '.join(map(str, ticket_text.values()))` (line 177). -/
def joinedValues (ps : PyPairs) : List Char := joinSpace (dictValuesStr ps)

/-- `get_dsid_from_json` (lines 159-191): `None` for a falsy argument,
`TypeError` for a truthy non-dict argument, otherwise the pattern loop
over the concatenated field text. -/
def get_dsid_from_json (ticket_text : PyValue) : Except (List Char) (Option (List Char)) :=
  if pyTruthy ticket_text = false then Except.ok none
  else
    match ticket_text with
    | PyValue.pydict ps => Except.ok (get_dsid_from_text (joinedValues ps))
    | other => Except.error ("Text must be in dict format, got ".toList ++ typeName other)

/-! ## Owner lookup (`get_dsid_owner_email`, lines 194-248)

The network activity of `requests.get` is modelled by a
`FetchResult` value handed to the embedded function: either one of
the exceptions the code catches, or a response carrying an HTTP
status and a body (`none` standing for a body that is not valid
JSON, which makes `response.json()` raise `ValueError`). -/

inductive Json : Type where
  | jnull : Json
  | jbool : Bool → Json
  | jnum : Int → Json
  | jstr : List Char → Json
  | jarr : List Json → Json
  | jobj : List (List Char × Json) → Json

inductive FetchResult : Type where
  | connError : FetchResult
  | timeoutErr : FetchResult
  | reqError : FetchResult
  | resp : Nat → Option Json → FetchResult

/-- Field lookup in a JSON object. -/
def jsonLookup : List (List Char × Json) → List Char → Option Json
  | [], _ => none
  | (k, v) :: rest, key => if k = key then some v else jsonLookup rest key

/-- Python truthiness of a decoded JSON value. -/
def jsonTruthy : Json → Bool
  | Json.jnull => false
  | Json.jbool b => b
  | Json.jnum n => n != 0
  | Json.jstr s => !s.isEmpty
  | Json.jarr xs => !xs.isEmpty
  | Json.jobj fs => !fs.isEmpty

/-- The `try` block over the decoded body (lines 234-248).  Every
branch other than a first `data` record with a string `email` field
ends in `None`: a falsy or missing `data` runs the `else` branch whose
`print` uses the unbound name `e` and raises `NameError`, caught by the
bare `except Exception` (return `None`); indexing or `.get` on values
of the wrong shape raises `KeyError`/`TypeError`/`AttributeError`,
all caught (return `None`); a missing or JSON-null `email` is returned
as Python `None`.  Non-string, non-null `email` values are not
distinguished by this model and also map to `none`. -/
def data_email (json_data : Json) : Option (List Char) :=
  match json_data with
  | Json.jobj fields =>
    match jsonLookup fields ("data".toList) with
    | some d =>
      if jsonTruthy d then
        match d with
        | Json.jarr (first :: _) =>
          match first with
          | Json.jobj f2 =>
            match jsonLookup f2 ("email".toList) with
            | some (Json.jstr e) => some e
            | _ => none
          | _ => none
        | _ => none
      else none
    | none => none
  | _ => none

/-- `response.raise_for_status()` raises `HTTPError` exactly for
status codes 400-599; the handlers for `ConnectionError`, `Timeout`,
`HTTPError`, `RequestException` and the JSON `ValueError` all return
`None` (lines 212-232). -/
def owner_from_response (response : FetchResult) : Option (List Char) :=
  match response with
  | FetchResult.connError => none
  | FetchResult.timeoutErr => none
  | FetchResult.reqError => none
  | FetchResult.resp status body =>
    if 400 ≤ status ∧ status < 600 then none
    else
      match body with
      | none => none
      | some json_data => data_email json_data

/-- `get_dsid_owner_email` (lines 194-248): `TypeError` naming the
received type for a non-string argument (line 205, before the request
is issued), otherwise the processing of the response obtained for the
request keyed by the dsid. -/
def get_dsid_owner_email (dsid : PyValue) (response : FetchResult) :
    Except (List Char) (Option (List Char)) :=
  match dsid with
  | PyValue.pystr _ => Except.ok (owner_from_response response)
  | other => Except.error ("dsid must be a string, got ".toList ++ typeName other)

/-! ## Assignment history (`_has_been_assigned_before`, lines 91-122) -/

/-- One entry of `item.items` in a changelog history. -/
structure ChangeItem : Type where
  field : List Char
  toString : List Char

/-- The ticket as fetched with `expand='changelog'`: its key and the
changelog histories, each a list of change items. -/
structure TicketView : Type where
  key : List Char
  histories : List (List ChangeItem)

/-- The `toString` values of all assignee changes (lines 110-114). -/
def assigneeHistory (ticket : TicketView) : List (List Char) :=
  ticket.histories.flatten.filterMap
    (fun change => if change.field = ("assignee".toList) then some change.toString else none)

/-- `_has_been_assigned_before` (lines 91-122).  A failed changelog
fetch (`JIRAError`, or no Jira connection) is the `none` argument and
returns `None`.  Otherwise the assignee history is tallied; both the
`if` branch (line 118) and the `else` branch (line 122) return
`[ticket.key, True]`. -/
def _has_been_assigned_before (fetched : Option TicketView) : Option (List Char × Bool) :=
  match fetched with
  | none => none
  | some ticket =>
    let history := assigneeHistory ticket
    if 1 < history.count ("DATAHELP-SERVICES-CONSULTING".toList) ∨
        1 < history.count ("DATAHELP-CURATION-SUPPORT".toList) then
      some (ticket.key, true)
    else
      some (ticket.key, true)

/-- Modelled from the spec (section 4.3 `AssignmentHistory`): the
intended predicate, true iff either team-queue identity appears more
than once in the assignee-change history.  Stated for comparison with
`_has_been_assigned_before`. -/
def wasRoutedBefore_spec (ticket : TicketView) : Bool :=
  let history := assigneeHistory ticket
  1 < history.count ("DATAHELP-SERVICES-CONSULTING".toList) ||
    1 < history.count ("DATAHELP-CURATION-SUPPORT".toList)

/-! ## Text cleaning (`_clean_text`, lines 58-72)

Each `re.sub` pass is embedded as a structurally recursive scan that
mirrors the leftmost, non-overlapping replacement discipline of
`re.sub`. -/

/-- `re.sub(r'\x5c\x7b[^\x7d]*\x7d', '', text)`: remove every segment from a
`\x7b` to the next `\x7d`; a `\x7b` with no following `\x7d` matches nothing.
The scan buffers (reversed) the characters of a candidate segment and
restores them when the text ends with the segment unclosed. -/
def subMarkupAux : List Char → Option (List Char) → List Char
  | [], none => []
  | [], some buf => buf.reverse
  | c :: cs, none =>
    if c = '\x7b' then subMarkupAux cs (some [c]) else c :: subMarkupAux cs none
  | c :: cs, some buf =>
    if c = '\x7d' then subMarkupAux cs none else subMarkupAux cs (some (c :: buf))

def subMarkup (text : List Char) : List Char := subMarkupAux text none

/-- Replacement rule of `re.sub(r'\s+\n', '', text)` for one maximal
whitespace run, given reversed: the leftmost greedy match removes the
run up to its last newline, provided that newline is not the very first
run character; the remainder of the run is kept. -/
def flushSpaceRun (buf : List Char) : List Char :=
  let pre := buf.takeWhile (fun c => c ≠ '\n')
  if pre.length = buf.length then buf.reverse
  else if pre.length + 1 = buf.length then buf.reverse
  else pre.reverse

/-- `re.sub(r'\s+\n', '', text)`: scan, buffering each maximal
whitespace run (reversed) and flushing it at the run end. -/
def subSpaceNlAux : List Char → List Char → List Char
  | [], buf => flushSpaceRun buf
  | c :: cs, buf =>
    if isPySpace c then subSpaceNlAux cs (c :: buf)
    else flushSpaceRun buf ++ c :: subSpaceNlAux cs []

def subSpaceNl (text : List Char) : List Char := subSpaceNlAux text []

/-- Replacement rule of `re.sub(r'\n\x7b3,\x7d', '\n', text)` for a maximal
run of `k` newlines. -/
def flushNlRun (k : Nat) : List Char :=
  if 3 ≤ k then ['\n'] else List.replicate k '\n'

/-- `re.sub(r'\n\x7b3,\x7d', '\n', text)`: collapse runs of three or more
newlines to one. -/
def subManyNlAux : List Char → Nat → List Char
  | [], k => flushNlRun k
  | c :: cs, k =>
    if c = '\n' then subManyNlAux cs (k + 1)
    else flushNlRun k ++ c :: subManyNlAux cs 0

def subManyNl (text : List Char) : List Char := subManyNlAux text 0

/-- `str.strip()`. -/
def pyStrip (s : List Char) : List Char :=
  (((s.dropWhile isPySpace).reverse).dropWhile isPySpace).reverse

/-- `_clean_text` (lines 58-72): `None` for a falsy argument, else the
three substitutions followed by `strip()`. -/
def _clean_text (text : Option (List Char)) : Option (List Char) :=
  match text with
  | none => none
  | some t =>
    if t.isEmpty then none
    else some (pyStrip (subManyNl (subSpaceNl (subMarkup t))))

/-! ## Tickets (`_issue_to_dict`, `get_unassigned_tickets`, lines 74-157) -/

/-- `issue.fields.reporter`. -/
structure Reporter : Type where
  displayName : Option (List Char)
  emailAddress : Option (List Char)

/-- The fields of a Jira issue that `_issue_to_dict` reads. -/
structure IssueFields : Type where
  reporter : Option Reporter
  summary : Option (List Char)
  description : Option (List Char)
  created : Option (List Char)

/-- A Jira issue as returned by `search_issues`, together with the
changelog that `self.jira.issue(key, expand='changelog')` would fetch
for its key. -/
structure Issue : Type where
  key : List Char
  fields : IssueFields
  histories : List (List ChangeItem)

def issueTicketView (issue : Issue) : TicketView := ⟨issue.key, issue.histories⟩

def optPv : Option (List Char) → PyValue
  | none => PyValue.pynone
  | some s => PyValue.pystr s

/-- `_issue_to_dict` (lines 74-89). -/
def _issue_to_dict (issue : Issue) : PyValue :=
  PyValue.pydict
    (PyPairs.cons ("key".toList) (optPv (_clean_text (some issue.key)))
    (PyPairs.cons ("reporter".toList)
      (match issue.fields.reporter with
      | some r =>
        PyValue.pydict
          (PyPairs.cons ("name".toList) (optPv (_clean_text r.displayName))
          (PyPairs.cons ("email".toList) (optPv (_clean_text r.emailAddress)) PyPairs.nil))
      | none => PyValue.pynone)
    (PyPairs.cons ("summary".toList) (optPv (_clean_text issue.fields.summary))
    (PyPairs.cons ("description".toList) (optPv (_clean_text issue.fields.description))
    (PyPairs.cons ("created".toList) (optPv (_clean_text issue.fields.created)) PyPairs.nil)))))

/-- `get_unassigned_tickets` (lines 125-157): `None` when the Jira
query fails; otherwise line 154 computes the history check for every
issue and line 156 rebinds `tickets`, discarding that result, so the
returned list holds the dict of every fetched issue.  The per-issue
changelog fetch inside the comprehension is modelled as succeeding
with the issue's own changelog. -/
def get_unassigned_tickets (searchResult : Option (List Issue)) : Option (List PyValue) :=
  match searchResult with
  | none => none
  | some issues =>
    let tickets := issues.map (fun issue => _has_been_assigned_before (some (issueTicketView issue)))
    let tickets := issues.map _issue_to_dict
    some tickets

/-! ## The routing pass (`main`, lines 316-347) -/

/-- The fixed alternate pool of line 331. -/
def assignee_list : List (List Char) :=
  ["dattore@ucar.edu".toList, "rpconroy@ucar.edu".toList, "caliepayne@ucar.edu".toList,
    "davestep@ucar.edu".toList, "tcram@ucar.edu".toList, "chiaweih@ucar.edu".toList]

/-- The reserved catch-all address of line 330. -/
def chifan_addr : List Char := "chifan@ucar.edu".toList

/-- Tail shared by both notes, starting at `" \n \n Common issues below:"`. -/
def common_issues_text : List Char :=
  (" \n \n Common issues below: \n \n OSDF Issue: Please add support@osg-htc.org as a ticket participant FIRST. Then, add a customer-visible comment (not an internal note) summarizing the issue so OSDF can view it. \n Spam: Change the assignee to it-helpabuse@ucar.edu. \n Not a DATAHELP ticket? Ask the customer to resubmit to the appropriate help desk. If you are unsure, point them to help@ucar.edu. Close the ticket.").toList

/-- The extended note of line 333, built for the randomly chosen pool
member. -/
def chifan_note (email : List Char) : List Char :=
  (" Chi-fan\x27s ticket randomly assigned to ").toList ++ email ++
    (". This was done automatically via script. Please @-mention caliepayne@ucar.edu in regards to issues with script.").toList ++
    common_issues_text

/-- The regular note of line 336. -/
def normal_note (email : List Char) : List Char :=
  ("Ticket assigned to ").toList ++ email ++
    (" based on DSID ownership. This was done automatically via script. Please @-mention caliepayne@ucar.edu in regards to issues with script.").toList ++
    common_issues_text

/-- Body of the service-queue loop of `main` (lines 321-339) for one
ticket dict.  `net` supplies the directory response for each dsid and
`pick` is the index `random.choice` selects in `assignee_list`.  The
result is the `assign_jira_ticket` call made for the ticket — the
assigned ticket id, address and note — or `none` when the ticket is
skipped; a raised `KeyError`/`TypeError` is an `Except.error`. -/
def route_service_ticket (net : List Char → FetchResult) (pick : Fin assignee_list.length)
    (ticket : PyValue) : Except (List Char) (Option (PyValue × List Char × List Char)) :=
  match dictGet ticket ("key".toList) with
  | none => Except.error ("KeyError: \x27key\x27".toList)
  | some ticket_id =>
    match get_dsid_from_json ticket with
    | Except.error e => Except.error e
    | Except.ok none => Except.ok none
    | Except.ok (some dsid) =>
      if dsid.isEmpty then Except.ok none
      else
        match get_dsid_owner_email (PyValue.pystr dsid) (net dsid) with
        | Except.error e => Except.error e
        | Except.ok none => Except.ok none
        | Except.ok (some email) =>
          if email.isEmpty then Except.ok none
          else if email = chifan_addr then
            Except.ok (some (ticket_id, assignee_list.get pick,
              chifan_note (assignee_list.get pick)))
          else
            Except.ok (some (ticket_id, email, normal_note email))

/-- The owner resolved for a ticket dict: the dsid extracted from its
fields, when truthy, looked up through `net`.  Used to state the
fallback-pool rule. -/
def resolved_owner (net : List Char → FetchResult) (ticket : PyValue) :
    Except (List Char) (Option (List Char)) :=
  match get_dsid_from_json ticket with
  | Except.error e => Except.error e
  | Except.ok none => Except.ok none
  | Except.ok (some dsid) =>
    if dsid.isEmpty then Except.ok none
    else get_dsid_owner_email (PyValue.pystr dsid) (net dsid)

/-! ## Specification-side predicates and concrete instances -/

/-- Canonical dataset-identifier form: a lowercase `d` followed by
exactly six digits. -/
def isCanonicalDsid : List Char → Bool
  | c :: rest => c == 'd' && (rest.length == 6) && rest.all isDigitChar
  | [] => false

/-- A ticket with an empty changelog: no assignee change ever. -/
def emptyTicket : TicketView := ⟨"DATAHELP-1".toList, []⟩

/-- An assignee change back to the services team queue. -/
def routedChange : ChangeItem := ⟨"assignee".toList, "DATAHELP-SERVICES-CONSULTING".toList⟩

/-- A ticket whose history shows the services queue identity twice:
already routed in the sense of the spec. -/
def routedIssue : Issue :=
  ⟨"DATAHELP-1".toList, ⟨none, some ("issue with d123456".toList), none, none⟩,
    [[routedChange], [routedChange]]⟩

/-- A directory that resolves every dsid to a regular owner. -/
def ownerNet : List Char → FetchResult := fun _ =>
  FetchResult.resp 200 (some (Json.jobj [(("data".toList),
    Json.jarr [Json.jobj [(("email".toList), Json.jstr ("owner@example.org".toList))]])]))

/-- Ticket fields containing only a legacy-pattern identifier. -/
def legacyTicketPairs : PyPairs :=
  PyPairs.cons ("summary".toList) (PyValue.pystr ("issue with ds123.4".toList)) PyPairs.nil

/-- Ticket fields containing a legacy-pattern and a primary-pattern
identifier. -/
def bothTicketPairs : PyPairs :=
  PyPairs.cons ("summary".toList) (PyValue.pystr ("ds123.4 and D654321".toList)) PyPairs.nil

/-- A well-formed directory response body with one record. -/
def redirectBody : Json :=
  Json.jobj [(("data".toList), Json.jarr [Json.jobj [(("email".toList),
    Json.jstr ("owner@example.org".toList))]])]

/-- A ticket dict naming dataset d222222. -/
def chiTicketPairs : PyPairs :=
  PyPairs.cons ("key".toList) (PyValue.pystr ("DATAHELP-2".toList))
    (PyPairs.cons ("summary".toList) (PyValue.pystr ("dataset d222222".toList)) PyPairs.nil)

/-- A directory that resolves every dsid to the catch-all address. -/
def chiNet : List Char → FetchResult := fun _ =>
  FetchResult.resp 200 (some (Json.jobj [(("data".toList),
    Json.jarr [Json.jobj [(("email".toList), Json.jstr ("chifan@ucar.edu".toList))]])]))

/-! ## Helper lemmas about the pattern search -/

theorem searchFrom_eq_some (f : Option Char → List Char → Option (List Char)) :
    ∀ (s : List Char) (prev : Option Char) (m : List Char),
      searchFrom f prev s = some m → ∃ p t, f p t = some m := by
  intro s
  induction s with
  | nil =>
    intro prev m h
    exact ⟨prev, [], h⟩
  | cons c cs ih =>
    intro prev m h
    rw [searchFrom] at h
    cases hf : f prev (c :: cs) with
    | some m2 =>
      rw [hf] at h
      change some m2 = some m at h
      exact ⟨prev, c :: cs, hf.trans h⟩
    | none =>
      rw [hf] at h
      change searchFrom f (some c) cs = some m at h
      exact ih (some c) m h

theorem primMatchAt_eq_some {prev : Option Char} {s m : List Char}
    (h : primMatchAt prev s = some m) :
    ∃ c0 c1 c2 c3 c4 c5 c6,
      m = [c0, c1, c2, c3, c4, c5, c6] ∧
      isDChar c0 = true ∧ isDigitChar c1 = true ∧ isDigitChar c2 = true ∧
      isDigitChar c3 = true ∧ isDigitChar c4 = true ∧ isDigitChar c5 = true ∧
      isDigitChar c6 = true := by
  rcases s with _ | ⟨c0, _ | ⟨c1, _ | ⟨c2, _ | ⟨c3, _ | ⟨c4, _ | ⟨c5, _ | ⟨c6, rest⟩⟩⟩⟩⟩⟩⟩ <;>
    simp only [primMatchAt] at h
  · exact absurd h (by simp)
  · exact absurd h (by simp)
  · exact absurd h (by simp)
  · exact absurd h (by simp)
  · exact absurd h (by simp)
  · exact absurd h (by simp)
  · exact absurd h (by simp)
  · split at h
    · next cond =>
      simp only [Bool.and_eq_true] at cond
      obtain ⟨⟨⟨⟨⟨⟨⟨⟨hb, h0⟩, h1⟩, h2⟩, h3⟩, h4⟩, h5⟩, h6⟩, ha⟩ := cond
      exact ⟨c0, c1, c2, c3, c4, c5, c6, (Option.some.inj h).symm, h0, h1, h2, h3, h4, h5, h6⟩
    · exact absurd h (by simp)

theorem legMatchAt_eq_some {prev : Option Char} {s m : List Char}
    (h : legMatchAt prev s = some m) :
    ∃ c0 c1 c2 c3 c4 c6,
      m = [c0, c1, c2, c3, c4, '.', c6] ∧
      isDChar c0 = true ∧ isSChar c1 = true ∧ isDigitChar c2 = true ∧
      isDigitChar c3 = true ∧ isDigitChar c4 = true ∧ isDigitChar c6 = true := by
  rcases s with _ | ⟨c0, _ | ⟨c1, _ | ⟨c2, _ | ⟨c3, _ | ⟨c4, _ | ⟨c5, _ | ⟨c6, rest⟩⟩⟩⟩⟩⟩⟩ <;>
    simp only [legMatchAt] at h
  · exact absurd h (by simp)
  · exact absurd h (by simp)
  · exact absurd h (by simp)
  · exact absurd h (by simp)
  · exact absurd h (by simp)
  · exact absurd h (by simp)
  · exact absurd h (by simp)
  · split at h
    · next cond =>
      simp only [Bool.and_eq_true] at cond
      obtain ⟨⟨⟨⟨⟨⟨⟨⟨hb, h0⟩, h1⟩, h2⟩, h3⟩, h4⟩, h5⟩, h6⟩, ha⟩ := cond
      have hdot : c5 = '.' := by simpa using h5
      subst hdot
      exact ⟨c0, c1, c2, c3, c4, c6, (Option.some.inj h).symm, h0, h1, h2, h3, h4, h6⟩
    · exact absurd h (by simp)

theorem pyToLowerChar_digit {c : Char} (h : isDigitChar c = true) : pyToLowerChar c = c := by
  simp only [isDigitChar, Bool.and_eq_true, decide_eq_true_eq] at h
  rw [pyToLowerChar, if_neg]
  simp only [isAsciiUpper, Bool.and_eq_true, decide_eq_true_eq, not_and]
  omega

theorem digit_beq_s_false {c : Char} (h : isDigitChar c = true) : (c == 's') = false := by
  rw [beq_eq_false_iff_ne]
  intro heq
  subst heq
  exact absurd h (by decide)

theorem digit_ne_dot {c : Char} (h : isDigitChar c = true) : ¬(c = '.') := by
  intro heq
  subst heq
  exact absurd h (by decide)

theorem isDChar_lower {c : Char} (h : isDChar c = true) : pyToLowerChar c = 'd' := by
  rcases (by simpa [isDChar] using h : c = 'd' ∨ c = 'D') with h1 | h1 <;> subst h1 <;> decide

theorem isSChar_lower {c : Char} (h : isSChar c = true) : pyToLowerChar c = 's' := by
  rcases (by simpa [isSChar] using h : c = 's' ∨ c = 'S') with h1 | h1 <;> subst h1 <;> decide

theorem processMatch_prim {c0 c1 c2 c3 c4 c5 c6 : Char}
    (h0 : isDChar c0 = true) (h1 : isDigitChar c1 = true) (h2 : isDigitChar c2 = true)
    (h3 : isDigitChar c3 = true) (h4 : isDigitChar c4 = true) (h5 : isDigitChar c5 = true)
    (h6 : isDigitChar c6 = true) :
    processMatch [c0, c1, c2, c3, c4, c5, c6] =
      some ('d' :: [c1, c2, c3, c4, c5, c6]) := by
  have hl : pyLower [c0, c1, c2, c3, c4, c5, c6] = 'd' :: [c1, c2, c3, c4, c5, c6] := by
    simp [pyLower, isDChar_lower h0, pyToLowerChar_digit, h1, h2, h3, h4, h5, h6]
  rw [processMatch, hl]
  rw [show startsWithDs ('d' :: [c1, c2, c3, c4, c5, c6]) = false by
    simp [startsWithDs, digit_beq_s_false h1]]
  simp

theorem processMatch_leg {c0 c1 c2 c3 c4 c6 : Char}
    (h0 : isDChar c0 = true) (h1 : isSChar c1 = true) (h2 : isDigitChar c2 = true)
    (h3 : isDigitChar c3 = true) (h4 : isDigitChar c4 = true) (h6 : isDigitChar c6 = true) :
    processMatch [c0, c1, c2, c3, c4, '.', c6] =
      some ['d', c2, c3, c4, '0', '0', c6] := by
  have hl : pyLower [c0, c1, c2, c3, c4, '.', c6] = ['d', 's', c2, c3, c4, '.', c6] := by
    simp [pyLower, isDChar_lower h0, isSChar_lower h1, pyToLowerChar_digit, h2, h3, h4, h6]
    decide
  rw [processMatch, hl]
  rw [show startsWithDs ['d', 's', c2, c3, c4, '.', c6] = true by simp [startsWithDs]]
  have hsplit : splitOnDot [c2, c3, c4, '.', c6] = [[c2, c3, c4], [c6]] := by
    simp [splitOnDot, digit_ne_dot h2, digit_ne_dot h3, digit_ne_dot h4, digit_ne_dot h6]
  simp only [List.drop, hsplit]
  have hc : (pyIsDigitStr [c2, c3, c4] && pyIsDigitStr [c6]) = true := by
    simp [pyIsDigitStr, h2, h3, h4, h6]
  simp [hc]

theorem processMatch_prim_self {c0 c1 c2 c3 c4 c5 c6 : Char}
    (h0 : isDChar c0 = true) (h1 : isDigitChar c1 = true) (h2 : isDigitChar c2 = true)
    (h3 : isDigitChar c3 = true) (h4 : isDigitChar c4 = true) (h5 : isDigitChar c5 = true)
    (h6 : isDigitChar c6 = true) :
    processMatch [c0, c1, c2, c3, c4, c5, c6] = some (pyLower [c0, c1, c2, c3, c4, c5, c6]) := by
  rw [processMatch_prim h0 h1 h2 h3 h4 h5 h6]
  congr 1
  simp [pyLower, isDChar_lower h0, pyToLowerChar_digit, h1, h2, h3, h4, h5, h6]

theorem get_dsid_from_text_prim {text m : List Char} (hp : searchPrim text = some m) :
    get_dsid_from_text text = some (pyLower m) := by
  obtain ⟨p, t, hf⟩ := searchFrom_eq_some primMatchAt text none m hp
  obtain ⟨c0, c1, c2, c3, c4, c5, c6, hm, h0, h1, h2, h3, h4, h5, h6⟩ := primMatchAt_eq_some hf
  subst hm
  simp only [get_dsid_from_text, hp, processMatch_prim_self h0 h1 h2 h3 h4 h5 h6]

theorem get_dsid_from_text_leg {text m : List Char} (hp : searchPrim text = none)
    (hl : searchLeg text = some m) :
    get_dsid_from_text text = some ('d' :: ((m.drop 2).take 3 ++ '0' :: '0' :: m.drop 6)) := by
  obtain ⟨p, t, hf⟩ := searchFrom_eq_some legMatchAt text none m hl
  obtain ⟨c0, c1, c2, c3, c4, c6, hm, h0, h1, h2, h3, h4, h6⟩ := legMatchAt_eq_some hf
  subst hm
  simp only [get_dsid_from_text, hp, hl, processMatch_leg h0 h1 h2 h3 h4 h6]
  simp

theorem get_dsid_from_text_canonical {text r : List Char}
    (h : get_dsid_from_text text = some r) : isCanonicalDsid r = true := by
  cases hp : searchPrim text with
  | some m =>
    obtain ⟨p, t, hf⟩ := searchFrom_eq_some primMatchAt text none m hp
    obtain ⟨c0, c1, c2, c3, c4, c5, c6, hm, h0, h1, h2, h3, h4, h5, h6⟩ := primMatchAt_eq_some hf
    subst hm
    rw [get_dsid_from_text_prim hp] at h
    have hr : r = 'd' :: [c1, c2, c3, c4, c5, c6] := by
      have := Option.some.inj h
      rw [← this]
      simp [pyLower, isDChar_lower h0, pyToLowerChar_digit, h1, h2, h3, h4, h5, h6]
    subst hr
    simp [isCanonicalDsid, h1, h2, h3, h4, h5, h6]
  | none =>
    cases hl : searchLeg text with
    | some m =>
      obtain ⟨p, t, hf⟩ := searchFrom_eq_some legMatchAt text none m hl
      obtain ⟨c0, c1, c2, c3, c4, c6, hm, h0, h1, h2, h3, h4, h6⟩ := legMatchAt_eq_some hf
      subst hm
      rw [get_dsid_from_text_leg hp hl] at h
      have hr : r = ['d', c2, c3, c4, '0', '0', c6] := by
        have := Option.some.inj h
        rw [← this]
        simp
      subst hr
      simp [isCanonicalDsid, h2, h3, h4, h6]
      decide
    | none =>
      rw [get_dsid_from_text, hp, hl] at h
      exact absurd h (by simp)

/-! ## The claims -/

/-- C1 (code bug): the claim states that the history check returns
true if and only if a team-queue identity appears more than once as
the new assignee, and `None` when the changelog fetch fails.  The
code returns `[ticket.key, True]` in the `else` branch as well
(line 122), so the result is `True` even for a ticket with no
assignee change at all, where the specified predicate
(`wasRoutedBefore_spec`) is false; only the `None`-on-failure half of
the claim holds. -/
theorem c1_history_check_true_without_prior_routing :
    wasRoutedBefore_spec emptyTicket = false ∧
    _has_been_assigned_before (some emptyTicket) = some ("DATAHELP-1".toList, true) ∧
    _has_been_assigned_before none = none :=
  ⟨rfl, rfl, rfl⟩

/-- C2 (code bug): the claim states that a ticket whose history shows
a team-queue identity more than once is excluded from the list that
`get_unassigned_tickets` returns and reaches no extraction, lookup or
assignment.  In the code, line 156 rebinds `tickets` and discards the
history-check results of line 154, so `routedIssue` — already routed
in the sense of the spec — is returned in the list, and the service
loop of `main` then extracts its dsid, resolves the owner and performs
the assignment call. -/
theorem c2_already_routed_ticket_not_excluded :
    wasRoutedBefore_spec (issueTicketView routedIssue) = true ∧
    get_unassigned_tickets (some [routedIssue]) = some [_issue_to_dict routedIssue] ∧
    route_service_ticket ownerNet ⟨0, by decide⟩ (_issue_to_dict routedIssue) =
      Except.ok (some (PyValue.pystr ("DATAHELP-1".toList), "owner@example.org".toList,
        normal_note ("owner@example.org".toList))) :=
  ⟨rfl, rfl, rfl⟩

/-- C3: when the concatenated field text has no primary-pattern match
and the legacy pattern matches `m`, extraction returns the canonical
form: `d`, the three digits before the dot, then the final digit
zero-padded to three digits (all lowercase, the groups being digits
already). -/
theorem c3_legacy_match_canonicalized (ps : PyPairs) (m : List Char)
    (hp : searchPrim (joinedValues ps) = none)
    (hl : searchLeg (joinedValues ps) = some m) :
    get_dsid_from_json (PyValue.pydict ps) =
      Except.ok (some ('d' :: ((m.drop 2).take 3 ++ '0' :: '0' :: m.drop 6))) := by
  cases ps with
  | nil =>
    rw [show searchLeg (joinedValues PyPairs.nil) = none from rfl] at hl
    exact Option.noConfusion hl
  | cons k v rest =>
    rw [show get_dsid_from_json (PyValue.pydict (PyPairs.cons k v rest)) =
      Except.ok (get_dsid_from_text (joinedValues (PyPairs.cons k v rest))) from rfl]
    rw [get_dsid_from_text_leg hp hl]

/-- C3 witness: a ticket whose text contains only `ds123.4` extracts
exactly `d123004`. -/
theorem c3_legacy_match_canonicalized_witness :
    searchPrim (joinedValues legacyTicketPairs) = none ∧
    get_dsid_from_json (PyValue.pydict legacyTicketPairs) =
      Except.ok (some ("d123004".toList)) :=
  ⟨by decide,
   c3_legacy_match_canonicalized legacyTicketPairs ("ds123.4".toList) (by decide) (by decide)⟩

/-- C4: whenever the owner resolved for a ticket equals the reserved
catch-all address, the assignment call made by the service loop of
`main` targets the pool member selected by `random.choice`, which is a
member of the fixed six-address pool, is never the catch-all address
itself, and carries the extended note; this holds for every possible
selection `pick`. -/
theorem c4_catchall_owner_routes_to_pool (net : List Char → FetchResult)
    (pick : Fin assignee_list.length) (ticket ticket_id : PyValue)
    (hk : dictGet ticket ("key".toList) = some ticket_id)
    (hchi : resolved_owner net ticket = Except.ok (some chifan_addr)) :
    route_service_ticket net pick ticket =
      Except.ok (some (ticket_id, assignee_list.get pick,
        chifan_note (assignee_list.get pick))) ∧
    assignee_list.get pick ∈ assignee_list ∧
    assignee_list.get pick ≠ chifan_addr := by
  have hmem : assignee_list.get pick ∈ assignee_list := List.get_mem assignee_list pick.1 pick.2
  have hne : assignee_list.get pick ≠ chifan_addr := by
    have hall : ∀ x ∈ assignee_list, x ≠ chifan_addr := by decide
    exact hall _ hmem
  refine ⟨?_, hmem, hne⟩
  simp only [resolved_owner] at hchi
  simp only [route_service_ticket, hk]
  cases hj : get_dsid_from_json ticket with
  | error e =>
    rw [hj] at hchi
    exact Except.noConfusion hchi
  | ok o =>
    rw [hj] at hchi
    cases o with
    | none => simp at hchi
    | some dsid =>
      simp only at hchi
      by_cases hemp : dsid.isEmpty
      · rw [if_pos hemp] at hchi
        simp at hchi
      · rw [if_neg hemp] at hchi
        simp only [hj, if_neg hemp, hchi]
        simp
        decide

/-- C4 witness: a ticket naming d222222 whose owner resolves to the
catch-all address is assigned to the pool member of index 2 with the
extended note. -/
theorem c4_catchall_owner_routes_to_pool_witness :
    route_service_ticket chiNet ⟨2, by decide⟩ (PyValue.pydict chiTicketPairs) =
      Except.ok (some (PyValue.pystr ("DATAHELP-2".toList), "caliepayne@ucar.edu".toList,
        chifan_note ("caliepayne@ucar.edu".toList))) ∧
    ("caliepayne@ucar.edu".toList) ∈ assignee_list ∧
    ("caliepayne@ucar.edu".toList) ≠ chifan_addr :=
  c4_catchall_owner_routes_to_pool chiNet ⟨2, by decide⟩ (PyValue.pydict chiTicketPairs)
    (PyValue.pystr ("DATAHELP-2".toList)) rfl rfl

/-- C5 counterexample: the claim says every non-2xx HTTP status makes
`get_dsid_owner_email` return `None`, but `raise_for_status` raises
only for statuses 400-599: a status-300 response with a well-formed
body yields the record email, not `None`. -/
theorem c5_non2xx_status_counterexample :
    get_dsid_owner_email (PyValue.pystr ("d123456".toList))
        (FetchResult.resp 300 (some redirectBody)) =
      Except.ok (some ("owner@example.org".toList)) ∧
    Except.ok (some ("owner@example.org".toList)) ≠
      (Except.ok none : Except (List Char) (Option (List Char))) :=
  ⟨rfl, by simp⟩

/-- C5 amended: for every dataset identifier string, a connection
failure, a timeout, any other request exception, an HTTP status in
400-599, or a response body that is not valid JSON makes
`get_dsid_owner_email` return `None` rather than raise. -/
theorem c5_transport_failures_return_none (s : List Char) :
    get_dsid_owner_email (PyValue.pystr s) FetchResult.connError = Except.ok none ∧
    get_dsid_owner_email (PyValue.pystr s) FetchResult.timeoutErr = Except.ok none ∧
    get_dsid_owner_email (PyValue.pystr s) FetchResult.reqError = Except.ok none ∧
    (∀ status body, 400 ≤ status → status < 600 →
      get_dsid_owner_email (PyValue.pystr s) (FetchResult.resp status body) = Except.ok none) ∧
    (∀ status, get_dsid_owner_email (PyValue.pystr s) (FetchResult.resp status none) =
      Except.ok none) := by
  refine ⟨rfl, rfl, rfl, ?_, ?_⟩
  · intro status body h4 h6
    show Except.ok (owner_from_response (FetchResult.resp status body)) = Except.ok none
    simp only [owner_from_response]
    rw [if_pos ⟨h4, h6⟩]
  · intro status
    show Except.ok (owner_from_response (FetchResult.resp status none)) = Except.ok none
    simp only [owner_from_response]
    split
    · rfl
    · rfl

/-- C5 witness: a 404 response returns `None` even with a well-formed
body. -/
theorem c5_transport_failures_return_none_witness :
    get_dsid_owner_email (PyValue.pystr ("d123456".toList))
        (FetchResult.resp 404 (some redirectBody)) = Except.ok none :=
  (c5_transport_failures_return_none ("d123456".toList)).2.2.2.1 404 (some redirectBody)
    (by decide) (by decide)

/-- C6: for every dataset identifier string, a non-error response
whose well-formed JSON body has an empty or missing `data` array makes
`get_dsid_owner_email` return `None` without raising (the `else`
branch of line 240 raises `NameError` on the unbound name `e`, which
the bare `except Exception` turns into `None`). -/
theorem c6_empty_or_missing_data_returns_none (s : List Char) (status : Nat)
    (fields : List (List Char × Json))
    (hst : ¬(400 ≤ status ∧ status < 600))
    (hdata : jsonLookup fields ("data".toList) = none ∨
      jsonLookup fields ("data".toList) = some (Json.jarr [])) :
    get_dsid_owner_email (PyValue.pystr s) (FetchResult.resp status (some (Json.jobj fields))) =
      Except.ok none := by
  show Except.ok (owner_from_response (FetchResult.resp status (some (Json.jobj fields)))) =
    Except.ok none
  simp only [owner_from_response]
  rw [if_neg hst]
  show Except.ok (data_email (Json.jobj fields)) = Except.ok none
  simp only [data_email]
  rcases hdata with h | h <;> rw [h]
  rfl

/-- C6 witness: a 200 response whose body has no `data` key returns
`None`. -/
theorem c6_empty_or_missing_data_returns_none_witness :
    get_dsid_owner_email (PyValue.pystr ("d999999".toList))
        (FetchResult.resp 200 (some (Json.jobj []))) = Except.ok none :=
  c6_empty_or_missing_data_returns_none ("d999999".toList) 200 [] (by decide) (Or.inl rfl)

/-- C7: when the concatenated field text has a primary-pattern match
`m` (and also a legacy-pattern match), extraction returns the
lower-cased primary match: the primary pattern is searched over the
whole text first and wins. -/
theorem c7_primary_pattern_priority (ps : PyPairs) (m m2 : List Char)
    (hp : searchPrim (joinedValues ps) = some m)
    (hl : searchLeg (joinedValues ps) = some m2) :
    get_dsid_from_json (PyValue.pydict ps) = Except.ok (some (pyLower m)) := by
  cases ps with
  | nil =>
    rw [show searchPrim (joinedValues PyPairs.nil) = none from rfl] at hp
    exact Option.noConfusion hp
  | cons k v rest =>
    rw [show get_dsid_from_json (PyValue.pydict (PyPairs.cons k v rest)) =
      Except.ok (get_dsid_from_text (joinedValues (PyPairs.cons k v rest))) from rfl]
    rw [get_dsid_from_text_prim hp]

/-- C7 witness: text containing both `ds123.4` and `D654321` extracts
`d654321`, the lower-cased primary match. -/
theorem c7_primary_pattern_priority_witness :
    searchLeg (joinedValues bothTicketPairs) = some ("ds123.4".toList) ∧
    get_dsid_from_json (PyValue.pydict bothTicketPairs) =
      Except.ok (some ("d654321".toList)) :=
  ⟨by decide,
   c7_primary_pattern_priority bothTicketPairs ("D654321".toList) ("ds123.4".toList)
     (by decide) (by decide)⟩

/-- C8: for every non-string argument and every possible network
behaviour, `get_dsid_owner_email` raises a `TypeError` naming the
received type; the result does not depend on the network, so no
request is consulted, and the error is never absorbed into `None`. -/
theorem c8_nonstring_dsid_raises_typeerror (v : PyValue) (response : FetchResult)
    (h : ∀ s, v ≠ PyValue.pystr s) :
    get_dsid_owner_email v response =
      Except.error ("dsid must be a string, got ".toList ++ typeName v) := by
  cases v with
  | pynone => rfl
  | pystr s => exact absurd rfl (h s)
  | pylist xs => rfl
  | pydict ps => rfl

/-- C8 witness: passing `None` yields the `TypeError` message naming
`NoneType`. -/
theorem c8_nonstring_dsid_raises_typeerror_witness :
    get_dsid_owner_email PyValue.pynone FetchResult.connError =
      Except.error ("dsid must be a string, got NoneType".toList) :=
  c8_nonstring_dsid_raises_typeerror PyValue.pynone FetchResult.connError
    (fun _s h => PyValue.noConfusion h)

/-- C9: every non-absent extraction result is a canonical dataset
identifier — a lowercase `d` followed by exactly six digits — whether
it came from the primary or the legacy pattern. -/
theorem c9_results_are_canonical_dsids (v : PyValue) (r : List Char)
    (h : get_dsid_from_json v = Except.ok (some r)) : isCanonicalDsid r = true := by
  unfold get_dsid_from_json at h
  split at h
  · exact absurd h (by simp)
  · cases v with
    | pynone => exact Except.noConfusion h
    | pystr s => exact Except.noConfusion h
    | pylist xs => exact Except.noConfusion h
    | pydict ps =>
      injection h with h2
      exact get_dsid_from_text_canonical h2

/-- C9 witness: the legacy-only ticket extracts `d123004`, which is in
canonical form. -/
theorem c9_results_are_canonical_dsids_witness :
    isCanonicalDsid ("d123004".toList) = true :=
  c9_results_are_canonical_dsids (PyValue.pydict legacyTicketPairs) ("d123004".toList) rfl

/-- C10: `get_dsid_from_json` returns `None` without raising for every
falsy argument — `None`, the empty string, list or dict — and its
`TypeError` can only arise for a truthy argument, so a wrong-typed but
empty value is silently absorbed. -/
theorem c10_falsy_inputs_return_none (v : PyValue) :
    (pyTruthy v = false → get_dsid_from_json v = Except.ok none) ∧
    (∀ msg, get_dsid_from_json v = Except.error msg → pyTruthy v = true) := by
  constructor
  · intro h
    unfold get_dsid_from_json
    rw [if_pos h]
  · intro msg h
    by_contra hn
    rw [Bool.not_eq_true] at hn
    unfold get_dsid_from_json at h
    rw [if_pos hn] at h
    exact Except.noConfusion h

/-- C10 witness: the empty list, although not a dict, is absorbed to
`None`, while the truthy non-dict string raises. -/
theorem c10_falsy_inputs_return_none_witness :
    get_dsid_from_json (PyValue.pylist PyValues.nil) = Except.ok none ∧
    pyTruthy (PyValue.pystr ("x".toList)) = true :=
  ⟨(c10_falsy_inputs_return_none (PyValue.pylist PyValues.nil)).1 (by decide),
   (c10_falsy_inputs_return_none (PyValue.pystr ("x".toList))).2
     ("Text must be in dict format, got str".toList) rfl⟩

end GdexJira
